import Mathlib

/-!
Verification development for the homebridge-wiz-helper device-communication
core.  The definitions below are shallow embeddings of the TypeScript source:

* `tempToCalvin` / `calvinToTemp` — the temperature mapper of
  `HomebridgeWizLight` (platformAccessory variant with the request
  coalescer).  JavaScript numbers are modelled as exact rationals and
  `Math.round x` as `⌊x + 1/2⌋`, which is JavaScript's round-half-up rule.
* `makeWizDevice` / `getWizDevice` — device classification and the
  discovery exchange of `HomebridgeWizHelper` (platform.ts).  A JavaScript
  truthiness test on an optional numeric field is modelled by `truthy` on
  `Option ℤ` (absent and 0 are falsy).  A reply datagram either parses as
  JSON (`Datagram.json`) or does not (`Datagram.junk`).
* `LightState` with `getPilot`, `request`, `onMessage`, `onSendComplete` —
  the per-accessory request coalescer.  The queue of waiting callbacks,
  the `pendingRequest` flag and every UDP socket opened by `request` are
  explicit state; callbacks are identified by numeric ids and the parsed
  replies handed to them are logged in arrival order in `invoked`.
  An exception escaping an event handler (the uncaught `JSON.parse` throw
  and the re-thrown send error) is recorded by the `crashed` flag, and on
  that path the handler body after the throw — including the scheduled
  `client.close()` — never runs.
-/

/-- `Math.round` of JavaScript on an exact rational: round half away from
zero for positive arguments, i.e. `⌊x + 1/2⌋`. -/
def jsRound (x : ℚ) : ℤ := ⌊x + 1 / 2⌋

/-- `HomebridgeWizLight.tempToCalvin` (coalescer variant): maps a HomeKit
color-temperature unit to Kelvin. -/
def tempToCalvin (temp : ℚ) : ℤ :=
  let total : ℚ := 500 - 140
  let current : ℚ := temp - 140
  let p : ℚ := 1 - current / total
  jsRound (2700 + (6500 - 2700) * p)

/-- `HomebridgeWizLight.calvinToTemp` (coalescer variant): maps Kelvin to a
HomeKit color-temperature unit. -/
def calvinToTemp (calvin : ℚ) : ℤ :=
  let total : ℚ := 6500 - 2700
  let current : ℚ := calvin - 2700
  let p : ℚ := 1 - current / total
  jsRound (140 + (500 - 140) * p)

/-- Closed integer form of `tempToCalvin` on integer inputs. -/
theorem tempToCalvin_eq (t : ℤ) :
    tempToCalvin (t : ℚ) = (143609 - 190 * t) / 18 := by
  unfold tempToCalvin jsRound
  have h : (2700 + (6500 - 2700) * (1 - ((t : ℚ) - 140) / (500 - 140)) + 1 / 2)
      = ((143609 - 190 * t : ℤ) : ℚ) / ((18 : ℕ) : ℚ) := by
    push_cast
    ring
  simp only [h]
  exact Rat.floor_intCast_div_natCast _ _

/-- Closed integer form of `calvinToTemp` on integer inputs. -/
theorem calvinToTemp_eq (c : ℤ) :
    calvinToTemp (c : ℚ) = (143695 - 18 * c) / 190 := by
  unfold calvinToTemp jsRound
  have h : (140 + (500 - 140) * (1 - ((c : ℚ) - 2700) / (6500 - 2700)) + 1 / 2)
      = ((143695 - 18 * c : ℤ) : ℚ) / ((190 : ℕ) : ℚ) := by
    push_cast
    ring
  simp only [h]
  exact Rat.floor_intCast_div_natCast _ _

/-- Claim C4: the temperature mapper satisfies the boundary equations:
`kelvinToUnit` (`calvinToTemp`) maps 2700 to 500 and 6500 to 140, and
`unitToKelvin` (`tempToCalvin`) maps 140 to 6500 and 500 to 2700. -/
theorem temperature_mapper_boundary :
    calvinToTemp ((2700 : ℤ) : ℚ) = 500 ∧ calvinToTemp ((6500 : ℤ) : ℚ) = 140 ∧
    tempToCalvin ((140 : ℤ) : ℚ) = 6500 ∧ tempToCalvin ((500 : ℤ) : ℚ) = 2700 := by
  refine ⟨?_, ?_, ?_, ?_⟩
  · rw [calvinToTemp_eq]; omega
  · rw [calvinToTemp_eq]; omega
  · rw [tempToCalvin_eq]; omega
  · rw [tempToCalvin_eq]; omega

/-- Claim C3, counterexample: at Kelvin input 2705 the round trip
`unitToKelvin (kelvinToUnit 2705)` lands on 2700, which is 5 away from the
input, not within the claimed ±1. -/
theorem kelvin_roundtrip_counterexample :
    calvinToTemp ((2705 : ℤ) : ℚ) = 500 ∧
    tempToCalvin ((calvinToTemp ((2705 : ℤ) : ℚ) : ℤ) : ℚ) = 2700 ∧
    ¬ (tempToCalvin ((calvinToTemp ((2705 : ℤ) : ℚ) : ℤ) : ℚ) - 2705).natAbs ≤ 1 := by
  have h1 : calvinToTemp ((2705 : ℤ) : ℚ) = 500 := by
    rw [calvinToTemp_eq]; omega
  refine ⟨h1, ?_, ?_⟩ <;> rw [h1, tempToCalvin_eq] <;> omega

/-- Claim C3 as amended: for every integer unit `u` in `[140, 500]` the
round trip `kelvinToUnit (unitToKelvin u)` returns `u` exactly (hence
within ±1), while for every integer Kelvin `k` in `[2700, 6500]` the round
trip `unitToKelvin (kelvinToUnit k)` is only guaranteed to be within ±5 of
`k` (the unit scale is about 10.6 times coarser than the Kelvin scale, so
the half-unit rounding error grows to up to 5 Kelvin). -/
theorem temperature_roundtrip_amended (u k : ℤ)
    (hu1 : 140 ≤ u) (hu2 : u ≤ 500) (hk1 : 2700 ≤ k) (hk2 : k ≤ 6500) :
    calvinToTemp ((tempToCalvin (u : ℚ) : ℤ) : ℚ) = u ∧
    (tempToCalvin ((calvinToTemp (k : ℚ) : ℤ) : ℚ) - k).natAbs ≤ 5 := by
  simp only [tempToCalvin_eq, calvinToTemp_eq]
  omega

/-- Witness for `temperature_roundtrip_amended` at `u = 250`, `k = 2705`. -/
theorem temperature_roundtrip_amended_witness :
    calvinToTemp ((tempToCalvin ((250 : ℤ) : ℚ) : ℤ) : ℚ) = 250 ∧
    (tempToCalvin ((calvinToTemp ((2705 : ℤ) : ℚ) : ℤ) : ℚ) - 2705).natAbs ≤ 5 :=
  temperature_roundtrip_amended 250 2705 (by omega) (by omega) (by omega) (by omega)

/-- The `result` object of an `IWizPilotResponse`: optional numeric fields
are `Option ℤ` (`none` = field absent / `undefined`). -/
structure WizResult where
  mac : String
  rssi : ℤ
  src : String
  state : Bool
  sceneId : Option ℤ
  temp : Option ℤ
  dimming : Option ℤ
deriving DecidableEq

/-- A parsed `IWizPilotResponse`. -/
structure Reply where
  method : String
  env : String
  result : WizResult
deriving DecidableEq

/-- A reply datagram: either bytes that parse as a JSON pilot response, or
bytes on which `JSON.parse` throws. -/
inductive Datagram where
  | junk
  | json (r : Reply)
deriving DecidableEq

/-- `JSON.parse` on a reply datagram, with the throwing case as `none`. -/
def jsonParse : Datagram → Option Reply
  | Datagram.junk => none
  | Datagram.json r => some r

/-- The `type` field of an `IWizDevice`. -/
inductive DevType where
  | WHITE_LIGHT
  | RGB_LIGHT
  | SWITCH
deriving DecidableEq

/-- JavaScript truthiness of an optional numeric field: `undefined` and `0`
are falsy, every other number is truthy. -/
def truthy : Option ℤ → Bool
  | none => false
  | some v => v != 0

/-- The classification made inside `HomebridgeWizHelper.makeWizDevice`
(platform.ts): `if (!info.result.dimming) return 'SWITCH'; if
(info.result.temp) return 'WHITE_LIGHT'; return 'RGB_LIGHT'`. -/
def makeWizDeviceType (res : WizResult) : DevType :=
  if !truthy res.dimming then DevType.SWITCH
  else if truthy res.temp then DevType.WHITE_LIGHT
  else DevType.RGB_LIGHT

/-- An `IWizDevice` as built by `makeWizDevice`; `dimming`/`temp` are
`none` when the corresponding key was never assigned. -/
structure IWizDevice where
  ip : String
  type : DevType
  mac : String
  rssi : ℤ
  src : String
  state : Bool
  sceneId : Option ℤ
  temp : Option ℤ
  dimming : Option ℤ
deriving DecidableEq

/-- `HomebridgeWizHelper.makeWizDevice` (platform.ts): classify the reply
and copy `dimming`/`temp` onto the device only in the `WHITE_LIGHT` case. -/
def makeWizDevice (ip : String) (info : Reply) : IWizDevice :=
  let type := makeWizDeviceType info.result
  let device : IWizDevice :=
    { ip := ip, type := type, mac := info.result.mac, state := info.result.state,
      rssi := info.result.rssi, src := info.result.src,
      sceneId := info.result.sceneId, temp := none, dimming := none }
  if type ≠ DevType.SWITCH then
    if type = DevType.WHITE_LIGHT then
      { device with dimming := info.result.dimming, temp := info.result.temp }
    else device
  else device

/-- How the single discovery exchange of `getWizDevice` ends: a datagram
arrives before the 1000 ms timer, the `client.send` callback reports an
error, or the timer fires first. -/
inductive NetOutcome where
  | reply (d : Datagram)
  | sendError
  | fires
deriving DecidableEq

/-- The timeout `getWizDevice` schedules around its exchange, in ms. -/
def getWizDeviceTimeoutMs : ℕ := 1000

/-- `HomebridgeWizHelper.getWizDevice` (platform.ts): the value the promise
resolves to, paired with whether the socket ends up closed.  The message
handler parses the datagram, resolves `null` on a parse failure or a
method other than `getPilot`, and schedules `client.close()`; the send
error path closes and resolves `null`; the timer path closes (inside
`try`) and resolves `null`. -/
def getWizDevice (ip : String) (o : NetOutcome) : Option IWizDevice × Bool :=
  match o with
  | NetOutcome.reply d =>
    match jsonParse d with
    | some deviceInfo =>
      if deviceInfo.method = "getPilot" then (some (makeWizDevice ip deviceInfo), true)
      else (none, true)
    | none => (none, true)
  | NetOutcome.sendError => (none, true)
  | NetOutcome.fires => (none, true)

/-- Claim C7, counterexample: the reply result `{dimming: 0, temp: 2700}`
has both `dimming` and `temp` present, yet `makeWizDevice` classifies it
as `SWITCH`, not `WHITE_LIGHT` — the code tests truthiness, not presence. -/
theorem classification_presence_counterexample :
    makeWizDeviceType
      { mac := "a8bb50", rssi := -60, src := "udp", state := false,
        sceneId := none, temp := some 2700, dimming := some 0 } = DevType.SWITCH ∧
    makeWizDeviceType
      { mac := "a8bb50", rssi := -60, src := "udp", state := false,
        sceneId := none, temp := some 2700, dimming := some 0 } ≠ DevType.WHITE_LIGHT := by
  refine ⟨rfl, ?_⟩
  decide

/-- Claim C7 as amended: classification keys on truthiness of the optional
fields — absence of `dimming` or a present `dimming` equal to 0 gives
`Switch`; nonzero `dimming` with nonzero `temp` gives `WhiteLight`;
nonzero `dimming` with `temp` absent or 0 gives `RgbLight`.  In
particular `{dimming: 50, temp: 2700}` yields `WhiteLight`, `{dimming:
80}` yields `RgbLight` and `{}` yields `Switch`. -/
theorem classification_amended (r : WizResult) :
    ((r.dimming = none ∨ r.dimming = some 0) → makeWizDeviceType r = DevType.SWITCH) ∧
    (∀ d t, r.dimming = some d → d ≠ 0 → r.temp = some t → t ≠ 0 →
      makeWizDeviceType r = DevType.WHITE_LIGHT) ∧
    (∀ d, r.dimming = some d → d ≠ 0 → (r.temp = none ∨ r.temp = some 0) →
      makeWizDeviceType r = DevType.RGB_LIGHT) ∧
    makeWizDeviceType
      { mac := "", rssi := 0, src := "", state := true,
        sceneId := none, temp := some 2700, dimming := some 50 } = DevType.WHITE_LIGHT ∧
    makeWizDeviceType
      { mac := "", rssi := 0, src := "", state := true,
        sceneId := none, temp := none, dimming := some 80 } = DevType.RGB_LIGHT ∧
    makeWizDeviceType
      { mac := "", rssi := 0, src := "", state := true,
        sceneId := none, temp := none, dimming := none } = DevType.SWITCH := by
  refine ⟨?_, ?_, ?_, rfl, rfl, rfl⟩
  · rintro (h | h) <;> simp [makeWizDeviceType, truthy, h]
  · rintro d t hd hd0 ht ht0
    simp [makeWizDeviceType, truthy, hd, ht, hd0, ht0]
  · rintro d hd hd0 (ht | ht) <;> simp [makeWizDeviceType, truthy, hd, ht, hd0]

/-- Witness for `classification_amended`: instantiating at the result
`{dimming: 50, temp: 2700}` and discharging the nonzero hypotheses gives
the `WHITE_LIGHT` classification. -/
theorem classification_amended_witness :
    makeWizDeviceType
      { mac := "a8bb50", rssi := -60, src := "udp", state := true,
        sceneId := none, temp := some 2700, dimming := some 50 } = DevType.WHITE_LIGHT :=
  (classification_amended
    { mac := "a8bb50", rssi := -60, src := "udp", state := true,
      sceneId := none, temp := some 2700, dimming := some 50 }).2.1
    50 2700 rfl (by decide) rfl (by decide)

/-- Claim C9: classification tests truthiness, not presence — a present
`dimming` equal to 0 classifies as `SWITCH`, and nonzero `dimming` with a
present `temp` equal to 0 classifies as `RGB_LIGHT`. -/
theorem classification_truthiness (r1 r2 : WizResult) (d : ℤ)
    (h1 : r1.dimming = some 0)
    (h2 : r2.dimming = some d) (hd : d ≠ 0) (h3 : r2.temp = some 0) :
    makeWizDeviceType r1 = DevType.SWITCH ∧
    makeWizDeviceType r2 = DevType.RGB_LIGHT := by
  constructor
  · simp [makeWizDeviceType, truthy, h1]
  · simp [makeWizDeviceType, truthy, h2, h3, hd]

/-- Witness for `classification_truthiness` at concrete replies with
`dimming = 0` and with `dimming = 80, temp = 0`. -/
theorem classification_truthiness_witness :
    makeWizDeviceType
      { mac := "a", rssi := 0, src := "s", state := true,
        sceneId := none, temp := some 2700, dimming := some 0 } = DevType.SWITCH ∧
    makeWizDeviceType
      { mac := "b", rssi := 0, src := "s", state := true,
        sceneId := none, temp := some 0, dimming := some 80 } = DevType.RGB_LIGHT :=
  classification_truthiness
    { mac := "a", rssi := 0, src := "s", state := true,
      sceneId := none, temp := some 2700, dimming := some 0 }
    { mac := "b", rssi := 0, src := "s", state := true,
      sceneId := none, temp := some 0, dimming := some 80 }
    80 rfl rfl (by decide) rfl

/-- `parseInt(response.result.temp)` where `temp` is `number | undefined`:
an integer stays itself, `undefined` (or anything non-numeric) gives
`NaN`, modelled as `none`. -/
def parseIntJS : Option ℤ → Option ℤ
  | none => none
  | some n => some n

/-- `calvinToTemp` lifted to NaN-propagation: every arithmetic operation
on `NaN` yields `NaN`, so a `NaN` input produces a `NaN` result. -/
def calvinToTempJS : Option ℤ → Option ℤ
  | none => none
  | some c => some (calvinToTemp (c : ℚ))

/-- The value `HomebridgeWizLight.getTemperature` (coalescer variant)
passes to its HomeKit callback once the `getPilot` reply `r` arrives:
`let temp = calvinToTemp(parseInt(r.result.temp)); if (isNaN(temp)) temp
= 500;` and then `callback(null, temp)`. -/
def getTemperatureDeliver (response : Reply) : ℤ :=
  let temp := calvinToTempJS (parseIntJS response.result.temp)
  match temp with
  | none => 500
  | some t => t

/-- Claim C8: whenever the reply's `temp` field does not parse as a number
(`parseInt` gives `NaN`), the temperature delivered to the caller is the
default range boundary 500 — an element of `{140, 500}` — and never an
error or `NaN` (the deliver function is total on `ℤ`). -/
theorem temperature_parse_fallback (response : Reply)
    (h : parseIntJS response.result.temp = none) :
    getTemperatureDeliver response = 500 ∧
    (getTemperatureDeliver response = 140 ∨ getTemperatureDeliver response = 500) := by
  have hd : getTemperatureDeliver response = 500 := by
    unfold getTemperatureDeliver
    rw [h]
    rfl
  exact ⟨hd, Or.inr hd⟩

/-- Witness for `temperature_parse_fallback` at a reply with no `temp`
field. -/
theorem temperature_parse_fallback_witness :
    getTemperatureDeliver
      { method := "getPilot", env := "pro",
        result := { mac := "a8bb50", rssi := -60, src := "udp", state := true,
                    sceneId := none, temp := none, dimming := some 50 } } = 500 ∧
    (getTemperatureDeliver
      { method := "getPilot", env := "pro",
        result := { mac := "a8bb50", rssi := -60, src := "udp", state := true,
                    sceneId := none, temp := none, dimming := some 50 } } = 140 ∨
     getTemperatureDeliver
      { method := "getPilot", env := "pro",
        result := { mac := "a8bb50", rssi := -60, src := "udp", state := true,
                    sceneId := none, temp := none, dimming := some 50 } } = 500) :=
  temperature_parse_fallback
    { method := "getPilot", env := "pro",
      result := { mac := "a8bb50", rssi := -60, src := "udp", state := true,
                  sceneId := none, temp := none, dimming := some 50 } } rfl

/-- The `params` object serialized into a request datagram. -/
inductive Params where
  | empty
  | state (b : Bool)
  | dimmingLevel (n : ℤ)
  | tempKelvin (n : ℤ)
deriving DecidableEq

/-- One UDP socket opened by `HomebridgeWizLight.request`, together with
the request it sent and the callback its message handler closed over. -/
structure Exchange where
  method : String
  params : Params
  cb : Option ℕ
  closed : Bool
deriving DecidableEq

/-- The mutable state of one `HomebridgeWizLight` accessory relevant to the
request coalescer, plus observation logs: `sent` counts datagrams sent,
`invoked` records every callback invocation `(callback id, parsed reply)`
in order, `timers` lists the durations of scheduled timeout timers that
resolve the call, and `crashed` records an exception escaping a handler. -/
structure LightState where
  pendingRequest : Bool
  callbacks : List ℕ
  exchanges : List Exchange
  sent : ℕ
  invoked : List (ℕ × Reply)
  timers : List ℕ
  crashed : Bool
deriving DecidableEq

/-- A fresh `HomebridgeWizLight`: `pendingRequest = false`, empty callback
queue, no sockets. -/
def initLight : LightState :=
  { pendingRequest := false, callbacks := [], exchanges := [], sent := 0,
    invoked := [], timers := [], crashed := false }

/-- `HomebridgeWizLight.request`: sets `pendingRequest`, opens a socket,
serializes `{method, params}` and sends one datagram.  The source
registers a message handler and a send callback but schedules no timeout
timer, so `timers` is untouched. -/
def request (method : String) (params : Params) (cb : Option ℕ)
    (s : LightState) : LightState :=
  { s with pendingRequest := true,
           exchanges := s.exchanges ++ [{ method := method, params := params,
                                          cb := cb, closed := false }],
           sent := s.sent + 1 }

/-- `HomebridgeWizLight.getPilot`: push the callback, then issue a
`getPilot` request only when no request is pending. -/
def getPilot (cb : ℕ) (s0 : LightState) : LightState :=
  let s := { s0 with callbacks := s0.callbacks ++ [cb] }
  if !s.pendingRequest then request "getPilot" Params.empty none s else s

/-- `HomebridgeWizLight.setOn`: issues `request('setPilot', {state:
value}, callback)`. -/
def setOn (value : Bool) (cb : ℕ) (s : LightState) : LightState :=
  request "setPilot" (Params.state value) (some cb) s

/-- Mark the socket of exchange `i` closed. -/
def setClosed : List Exchange → ℕ → List Exchange
  | [], _ => []
  | ex :: rest, 0 => { ex with closed := true } :: rest
  | ex :: rest, n + 1 => ex :: setClosed rest n

/-- The message handler `request` registers on its socket, fired when
datagram `d` arrives on the socket of exchange `i`.  It first clears
`pendingRequest`, then parses the datagram — `JSON.parse` throwing on the
log line is an uncaught exception, after which neither the callbacks nor
the scheduled `client.close()` run — then either invokes the request's
own callback or drains the whole queue in FIFO order, and finally
schedules the socket close. -/
def onMessage (i : ℕ) (d : Datagram) (s : LightState) : LightState :=
  match s.exchanges[i]? with
  | none => s
  | some ex =>
    if ex.closed then s
    else
      let s1 := { s with pendingRequest := false }
      match jsonParse d with
      | none => { s1 with crashed := true }
      | some r =>
        let s2 :=
          match ex.cb with
          | some c => { s1 with invoked := s1.invoked ++ [(c, r)] }
          | none => { s1 with invoked := s1.invoked ++ s1.callbacks.map (fun c => (c, r)),
                              callbacks := [] }
        { s2 with exchanges := setClosed s2.exchanges i }

/-- The `client.send` completion callback of exchange `i`: it clears
`pendingRequest` unconditionally, and on a send error closes the socket
and re-throws (an uncaught exception). -/
def onSendComplete (i : ℕ) (error : Bool) (s : LightState) : LightState :=
  let s1 := { s with pendingRequest := false }
  if error then { s1 with exchanges := setClosed s1.exchanges i, crashed := true }
  else s1

/-- The events that can touch one accessory's coalescer state: a HomeKit
`getPilot` caller, a HomeKit set request, a reply datagram arriving on
the socket of exchange `i`, and the send-completion callback of exchange
`i`.  There is no timer event for the accessory: `request` schedules
none. -/
inductive Ev where
  | callGetPilot (cb : ℕ)
  | callSetOn (value : Bool) (cb : ℕ)
  | message (i : ℕ) (d : Datagram)
  | sendComplete (i : ℕ) (error : Bool)
deriving DecidableEq

/-- Event dispatch. -/
def step (s : LightState) (e : Ev) : LightState :=
  match e with
  | Ev.callGetPilot cb => getPilot cb s
  | Ev.callSetOn v cb => setOn v cb s
  | Ev.message i d => onMessage i d s
  | Ev.sendComplete i err => onSendComplete i err s

/-- Run a sequence of events. -/
def run (s : LightState) (evs : List Ev) : LightState := evs.foldl step s

/-- Whether an event is the arrival of a reply datagram. -/
def isReplyEvent : Ev → Bool
  | Ev.message _ _ => true
  | _ => false

/-- Unfolding `run` on a cons. -/
theorem run_cons (s : LightState) (e : Ev) (evs : List Ev) :
    run s (e :: evs) = run (step s e) evs := rfl

/-- Unfolding `run` on an append. -/
theorem run_append (s : LightState) (a b : List Ev) :
    run s (a ++ b) = run (run s a) b := by
  simp [run, List.foldl_append]

/-- While `pendingRequest` is set, a sequence of `getPilot` calls only
appends the callbacks to the queue: no request is issued, nothing else in
the state changes. -/
theorem run_getPilot_pending (rest : List ℕ) (s : LightState)
    (h : s.pendingRequest = true) :
    run s (rest.map Ev.callGetPilot) = { s with callbacks := s.callbacks ++ rest } := by
  induction rest generalizing s with
  | nil => simp [run]
  | cons c cs ih =>
      rw [List.map_cons, run_cons]
      have hstep : step s (Ev.callGetPilot c) = { s with callbacks := s.callbacks ++ [c] } := by
        simp [step, getPilot, h]
      rw [hstep, ih { s with callbacks := s.callbacks ++ [c] } h]
      simp

/-- No event ever schedules a timer on the accessory coalescer:
`request` registers a message handler and a send callback, nothing else. -/
theorem step_timers (s : LightState) (e : Ev) : (step s e).timers = s.timers := by
  cases e <;> simp only [step, getPilot, setOn, request, onMessage, onSendComplete] <;>
    repeat' first | rfl | split

/-- `timers` is invariant along every event sequence. -/
theorem run_timers (evs : List Ev) (s : LightState) :
    (run s evs).timers = s.timers := by
  induction evs generalizing s with
  | nil => rfl
  | cons e evs ih => rw [run_cons, ih, step_timers]

/-- An event that is not the arrival of a reply datagram invokes no
callback. -/
theorem step_invoked_no_reply (s : LightState) (e : Ev)
    (h : isReplyEvent e = false) : (step s e).invoked = s.invoked := by
  cases e with
  | message i d => simp [isReplyEvent] at h
  | callGetPilot cb =>
      simp only [step, getPilot, request]
      split <;> rfl
  | callSetOn v cb => rfl
  | sendComplete i err =>
      simp only [step, onSendComplete]
      split <;> rfl

/-- Without a reply datagram, `invoked` never grows: no timer or other
event can resolve a queued caller. -/
theorem run_invoked_no_reply (evs : List Ev) (s : LightState)
    (h : ∀ e ∈ evs, isReplyEvent e = false) :
    (run s evs).invoked = s.invoked := by
  induction evs generalizing s with
  | nil => rfl
  | cons e evs ih =>
      rw [run_cons, ih _ (fun x hx => h x (List.mem_cons_of_mem e hx)),
        step_invoked_no_reply s e (h e (List.mem_cons_self e evs))]

/-- A concrete well-formed `getPilot` reply used in witnesses. -/
def sampleReply : Reply :=
  { method := "getPilot", env := "pro",
    result := { mac := "a8bb50", rssi := -60, src := "udp", state := true,
                sceneId := none, temp := some 2700, dimming := some 50 } }

/-- Claim C1, counterexample: after `getPilot` issues a request, the UDP
send-completion callback clears `pendingRequest` even though no reply has
been processed (nothing was invoked, the socket of exchange 0 is still
open and awaiting its reply); a `getPilot` call arriving next therefore
issues a second network exchange, so two `getPilot` socket exchanges for
the same device are outstanding at once. -/
theorem pending_cleared_on_send_counterexample :
    (run initLight [Ev.callGetPilot 0, Ev.sendComplete 0 false]).pendingRequest = false ∧
    (run initLight [Ev.callGetPilot 0, Ev.sendComplete 0 false]).invoked = [] ∧
    (run initLight [Ev.callGetPilot 0, Ev.sendComplete 0 false]).exchanges.map
      (fun ex => ex.closed) = [false] ∧
    (run initLight [Ev.callGetPilot 0, Ev.sendComplete 0 false, Ev.callGetPilot 1]).sent = 2 ∧
    (run initLight [Ev.callGetPilot 0, Ev.sendComplete 0 false, Ev.callGetPilot 1]).exchanges.map
      (fun ex => ex.closed) = [false, false] :=
  ⟨rfl, rfl, rfl, rfl, rfl⟩

/-- Claim C1 as amended: the coalescer's `pendingRequest` flag is set by
`request` before the datagram goes out, and while it is set a `getPilot`
call only appends its callback and issues no new exchange; the flag is
cleared when a reply is processed, but it is also cleared unconditionally
by the send-completion callback, so once the send completes — before any
reply — the next `getPilot` issues a second exchange and the at-most-one-
outstanding-exchange invariant fails. -/
theorem coalescer_flag_amended (cb i : ℕ) (err : Bool) (m : String) (p : Params)
    (c : Option ℕ) (s : LightState) (h : s.pendingRequest = true) :
    getPilot cb s = { s with callbacks := s.callbacks ++ [cb] } ∧
    (request m p c s).pendingRequest = true ∧
    (request m p c s).sent = s.sent + 1 ∧
    (onSendComplete i err s).pendingRequest = false ∧
    (run initLight [Ev.callGetPilot 0, Ev.sendComplete 0 false, Ev.callGetPilot 1]).sent = 2 := by
  refine ⟨?_, rfl, rfl, ?_, rfl⟩
  · simp [getPilot, h]
  · simp only [onSendComplete]
    cases err <;> rfl

/-- Witness for `coalescer_flag_amended`, at the state reached after one
`getPilot` call (where `pendingRequest` is set). -/
theorem coalescer_flag_amended_witness :
    getPilot 1 (run initLight [Ev.callGetPilot 0])
      = { run initLight [Ev.callGetPilot 0] with
          callbacks := (run initLight [Ev.callGetPilot 0]).callbacks ++ [1] } ∧
    (request "setPilot" Params.empty none (run initLight [Ev.callGetPilot 0])).pendingRequest = true ∧
    (request "setPilot" Params.empty none (run initLight [Ev.callGetPilot 0])).sent
      = (run initLight [Ev.callGetPilot 0]).sent + 1 ∧
    (onSendComplete 0 false (run initLight [Ev.callGetPilot 0])).pendingRequest = false ∧
    (run initLight [Ev.callGetPilot 0, Ev.sendComplete 0 false, Ev.callGetPilot 1]).sent = 2 :=
  coalescer_flag_amended 1 0 false "setPilot" Params.empty none
    (run initLight [Ev.callGetPilot 0]) rfl

/-- Claim C2: N ≥ 1 concurrent `getPilot` (`getState`) calls followed by
one reply produce exactly one sent datagram, invoke every queued callback
with the identical parsed reply in FIFO enqueue order, and leave the
queue empty. -/
theorem getState_coalescing (cbs : List ℕ) (r : Reply) (h : cbs ≠ []) :
    (run initLight (cbs.map Ev.callGetPilot ++ [Ev.message 0 (Datagram.json r)])).sent = 1 ∧
    (run initLight (cbs.map Ev.callGetPilot ++ [Ev.message 0 (Datagram.json r)])).invoked
      = cbs.map (fun c => (c, r)) ∧
    (run initLight (cbs.map Ev.callGetPilot ++ [Ev.message 0 (Datagram.json r)])).callbacks = [] := by
  obtain ⟨c, cs, rfl⟩ := List.exists_cons_of_ne_nil h
  rw [List.map_cons, List.cons_append, run_cons, run_append]
  have hstep : step initLight (Ev.callGetPilot c)
      = { pendingRequest := true, callbacks := [c],
          exchanges := [{ method := "getPilot", params := Params.empty,
                          cb := none, closed := false }],
          sent := 1, invoked := [], timers := [], crashed := false } := rfl
  rw [hstep, run_getPilot_pending cs _ rfl]
  exact ⟨rfl, rfl, rfl⟩

/-- Witness for `getState_coalescing`: five concurrent `getState` callers
all receive the same parsed reply, in order, from one datagram. -/
theorem getState_coalescing_witness :
    (run initLight ([0, 1, 2, 3, 4].map Ev.callGetPilot
      ++ [Ev.message 0 (Datagram.json sampleReply)])).sent = 1 ∧
    (run initLight ([0, 1, 2, 3, 4].map Ev.callGetPilot
      ++ [Ev.message 0 (Datagram.json sampleReply)])).invoked
      = [0, 1, 2, 3, 4].map (fun c => (c, sampleReply)) ∧
    (run initLight ([0, 1, 2, 3, 4].map Ev.callGetPilot
      ++ [Ev.message 0 (Datagram.json sampleReply)])).callbacks = [] :=
  getState_coalescing [0, 1, 2, 3, 4] sampleReply (by decide)

/-- Claim C5, counterexample: the per-accessory `request` schedules no
timeout timer around its exchange — after a `getPilot` call there is no
timer whose expiry could resolve the call, and once the send completes
without a reply the queued caller is still uninvoked and the socket still
open.  (Discovery's `getWizDevice` does schedule a 1000 ms timer; the
per-accessory path does not, refuting the claim for "every" exchange.) -/
theorem request_no_timeout_counterexample :
    (run initLight [Ev.callGetPilot 0]).timers = [] ∧
    (run initLight [Ev.callGetPilot 0]).sent = 1 ∧
    (run initLight [Ev.callGetPilot 0, Ev.sendComplete 0 false]).invoked = [] ∧
    (run initLight [Ev.callGetPilot 0, Ev.sendComplete 0 false]).callbacks = [0] ∧
    (run initLight [Ev.callGetPilot 0, Ev.sendComplete 0 false]).exchanges.map
      (fun ex => ex.closed) = [false] :=
  ⟨rfl, rfl, rfl, rfl, rfl⟩

/-- Claim C5 as amended: the discovery exchange of `getWizDevice` carries
an explicit 1000 ms timeout whose expiry resolves the promise to `null`
and closes the socket; the per-accessory `getPilot`/`setPilot` exchanges
issued through `request` carry no timeout at all — no event sequence free
of reply datagrams ever schedules a timer or invokes a queued callback,
so a per-accessory call whose reply is lost waits forever. -/
theorem timeout_amended (ip : String) (evs : List Ev)
    (h : ∀ e ∈ evs, isReplyEvent e = false) :
    getWizDevice ip NetOutcome.fires = (none, true) ∧
    getWizDeviceTimeoutMs = 1000 ∧
    (run initLight (Ev.callGetPilot 0 :: evs)).timers = [] ∧
    (run initLight (Ev.callGetPilot 0 :: evs)).invoked = [] := by
  refine ⟨rfl, rfl, ?_, ?_⟩
  · rw [run_cons, run_timers, step_timers]
    rfl
  · rw [run_cons, run_invoked_no_reply evs _ h]
    rfl

/-- Witness for `timeout_amended`: after the send of the lone `getPilot`
request completes with no reply, nothing has been invoked and no timer
exists. -/
theorem timeout_amended_witness :
    getWizDevice "192.168.1.144" NetOutcome.fires = (none, true) ∧
    getWizDeviceTimeoutMs = 1000 ∧
    (run initLight (Ev.callGetPilot 0 :: [Ev.sendComplete 0 false])).timers = [] ∧
    (run initLight (Ev.callGetPilot 0 :: [Ev.sendComplete 0 false])).invoked = [] :=
  timeout_amended "192.168.1.144" [Ev.sendComplete 0 false] (by decide)

/-- Claim C6, counterexample: a non-JSON reply datagram delivered to a
per-accessory `getPilot` exchange makes the message handler throw
(uncaught `JSON.parse` exception on the debug-log line): the call does
not resolve to absence — the queued caller is still waiting — and the
socket close is never scheduled on that path. -/
theorem malformed_reply_counterexample :
    (run initLight [Ev.callGetPilot 0, Ev.message 0 Datagram.junk]).crashed = true ∧
    (run initLight [Ev.callGetPilot 0, Ev.message 0 Datagram.junk]).invoked = [] ∧
    (run initLight [Ev.callGetPilot 0, Ev.message 0 Datagram.junk]).callbacks = [0] ∧
    (run initLight [Ev.callGetPilot 0, Ev.message 0 Datagram.junk]).exchanges.map
      (fun ex => ex.closed) = [false] :=
  ⟨rfl, rfl, rfl, rfl⟩

/-- Claim C6 as amended: the discovery handler of `getWizDevice` resolves
to `null` with the socket released both on a parse failure and on a
mismatched method; the per-accessory handler of `request` performs no
method check — any parsed reply is delivered to the queued callbacks
as-is — and a reply that fails to parse raises an uncaught exception,
leaving the caller unresolved and the socket open. -/
theorem malformed_reply_amended (ip : String) (r : Reply)
    (hm : r.method ≠ "getPilot") :
    getWizDevice ip (NetOutcome.reply Datagram.junk) = (none, true) ∧
    getWizDevice ip (NetOutcome.reply (Datagram.json r)) = (none, true) ∧
    (run initLight [Ev.callGetPilot 0, Ev.message 0 (Datagram.json r)]).invoked = [(0, r)] ∧
    (run initLight [Ev.callGetPilot 0, Ev.message 0 Datagram.junk]).crashed = true ∧
    (run initLight [Ev.callGetPilot 0, Ev.message 0 Datagram.junk]).exchanges.map
      (fun ex => ex.closed) = [false] := by
  refine ⟨rfl, ?_, rfl, rfl, rfl⟩
  simp [getWizDevice, jsonParse, hm]

/-- A reply whose `method` is `setPilot`, used to exercise the method
mismatch paths. -/
def setPilotReply : Reply :=
  { method := "setPilot", env := "pro",
    result := { mac := "a8bb50", rssi := -60, src := "udp", state := true,
                sceneId := none, temp := none, dimming := none } }

/-- Witness for `malformed_reply_amended` at a reply carrying method
`setPilot`. -/
theorem malformed_reply_amended_witness :
    getWizDevice "192.168.1.73" (NetOutcome.reply Datagram.junk) = (none, true) ∧
    getWizDevice "192.168.1.73"
      (NetOutcome.reply (Datagram.json setPilotReply)) = (none, true) ∧
    (run initLight [Ev.callGetPilot 0,
      Ev.message 0 (Datagram.json setPilotReply)]).invoked = [(0, setPilotReply)] ∧
    (run initLight [Ev.callGetPilot 0, Ev.message 0 Datagram.junk]).crashed = true ∧
    (run initLight [Ev.callGetPilot 0, Ev.message 0 Datagram.junk]).exchanges.map
      (fun ex => ex.closed) = [false] :=
  malformed_reply_amended "192.168.1.73" setPilotReply (by decide)

/-- Claim C10: `setPilot` requests share the coalescer's `pendingRequest`
flag with `getPilot`, and a reply to a request issued with its own
callback invokes only that callback.  A `getState` caller enqueued while
a `setPilot` is in flight sends no datagram and is not invoked by the
`setPilot` reply; it stays queued until a later `getPilot` reply drains
the queue. -/
theorem setPilot_coalescer_interaction (v : Bool) (cbS c c2 : ℕ) (r r2 : Reply) :
    (run initLight [Ev.callSetOn v cbS, Ev.callGetPilot c]).sent = 1 ∧
    (run initLight [Ev.callSetOn v cbS, Ev.callGetPilot c,
      Ev.message 0 (Datagram.json r)]).invoked = [(cbS, r)] ∧
    (run initLight [Ev.callSetOn v cbS, Ev.callGetPilot c,
      Ev.message 0 (Datagram.json r)]).callbacks = [c] ∧
    (run initLight [Ev.callSetOn v cbS, Ev.callGetPilot c, Ev.message 0 (Datagram.json r),
      Ev.callGetPilot c2, Ev.message 1 (Datagram.json r2)]).sent = 2 ∧
    (run initLight [Ev.callSetOn v cbS, Ev.callGetPilot c, Ev.message 0 (Datagram.json r),
      Ev.callGetPilot c2, Ev.message 1 (Datagram.json r2)]).invoked
      = [(cbS, r), (c, r2), (c2, r2)] ∧
    (run initLight [Ev.callSetOn v cbS, Ev.callGetPilot c, Ev.message 0 (Datagram.json r),
      Ev.callGetPilot c2, Ev.message 1 (Datagram.json r2)]).callbacks = [] :=
  ⟨rfl, rfl, rfl, rfl, rfl, rfl⟩
